import Mathlib

/-
Verification of the authentication/session/RBAC core of the reactadmin-refine
backend (backend/app): a shallow embedding of the Python source into Lean 4,
with theorems settling the specification claims about it.

Conventions of the embedding:
* Database ids (UUIDs) are modelled as strings; the str()/uuid.UUID()
  normalisations the code performs on well-formed ids are identity here.
* Timestamps are integers; "datetime.now(timezone.utc)" becomes an explicit
  `now` argument.
* External cryptographic primitives (PBKDF2 via passlib, SHA-256 token
  hashing, JWT encoding, secrets.token_urlsafe) are explicit function
  parameters of the definitions that call them; the logic around them is
  translated from the source.
* The Redis permission cache is external and best-effort in the source
  (errors are swallowed, lookups may miss); the cached value that
  cache.get_cached_user_permissions would return is passed in as an explicit
  `Option (List String)` argument.
* A SQLAlchemy query's .first() is List.find? over the table list; an
  INSERT appends at the end of the list.
-/

namespace App

/-! ## Python strings and UTF-8 (for backend/app/core/security.py)

A Python `str` is a sequence of Unicode code points, modelled as `List Nat`.
`bytes` values are also `List Nat` (each entry < 256). -/

/-- A Python `str`: its list of Unicode code points. -/
abbrev PyStr := List Nat

/-- UTF-8 encoding of a single code point (CPython `str.encode("utf-8")`,
per-character; code points that CPython would reject, i.e. surrogates,
do not occur in the inputs considered here). -/
def utf8EncodeChar (c : Nat) : List Nat :=
  if c ≤ 0x7F then [c]
  else if c ≤ 0x7FF then [0xC0 + c / 64, 0x80 + c % 64]
  else if c ≤ 0xFFFF then [0xE0 + c / 4096, 0x80 + (c / 64) % 64, 0x80 + c % 64]
  else [0xF0 + c / 262144, 0x80 + (c / 4096) % 64, 0x80 + (c / 64) % 64, 0x80 + c % 64]

/-- UTF-8 encoding of a Python string (`s.encode("utf-8")`). -/
def utf8Encode : PyStr → List Nat
  | [] => []
  | c :: s => utf8EncodeChar c ++ utf8Encode s

/-- Whether a byte is a UTF-8 continuation byte (0x80..0xBF). -/
def isCont (c : Nat) : Bool := 0x80 ≤ c && c ≤ 0xBF

/-- Valid range of the first continuation byte of a three-byte sequence,
which depends on the lead byte (excludes overlong forms and surrogates,
as CPython's strict decoder does). -/
def cont3first (b c1 : Nat) : Bool :=
  if b = 0xE0 then 0xA0 ≤ c1 && c1 ≤ 0xBF
  else if b = 0xED then 0x80 ≤ c1 && c1 ≤ 0x9F
  else isCont c1

/-- Valid range of the first continuation byte of a four-byte sequence. -/
def cont4first (b c1 : Nat) : Bool :=
  if b = 0xF0 then 0x90 ≤ c1 && c1 ≤ 0xBF
  else if b = 0xF4 then 0x80 ≤ c1 && c1 ≤ 0x8F
  else isCont c1

/-- Worker for the errors="ignore" UTF-8 decoder.  Each step consumes at
least one byte, so running it with fuel equal to the input length computes
the decoder; structural recursion on the fuel keeps it kernel-reducible. -/
def utf8DecodeIgnoreAux : Nat → List Nat → PyStr
  | 0, _ => []
  | _ + 1, [] => []
  | fuel + 1, b :: rest =>
    if b ≤ 0x7F then b :: utf8DecodeIgnoreAux fuel rest
    else if 0xC2 ≤ b && b ≤ 0xDF then
      match rest with
      | [] => []
      | c1 :: rest2 =>
        if isCont c1 then ((b - 0xC0) * 64 + (c1 - 0x80)) :: utf8DecodeIgnoreAux fuel rest2
        else utf8DecodeIgnoreAux fuel (c1 :: rest2)
    else if 0xE0 ≤ b && b ≤ 0xEF then
      match rest with
      | [] => []
      | [c1] => if cont3first b c1 then [] else utf8DecodeIgnoreAux fuel [c1]
      | c1 :: c2 :: rest2 =>
        if cont3first b c1 then
          if isCont c2 then
            ((b - 0xE0) * 4096 + (c1 - 0x80) * 64 + (c2 - 0x80)) :: utf8DecodeIgnoreAux fuel rest2
          else utf8DecodeIgnoreAux fuel (c2 :: rest2)
        else utf8DecodeIgnoreAux fuel (c1 :: c2 :: rest2)
    else if 0xF0 ≤ b && b ≤ 0xF4 then
      match rest with
      | [] => []
      | [c1] => if cont4first b c1 then [] else utf8DecodeIgnoreAux fuel [c1]
      | [c1, c2] =>
        if cont4first b c1 then
          if isCont c2 then [] else utf8DecodeIgnoreAux fuel [c2]
        else utf8DecodeIgnoreAux fuel [c1, c2]
      | c1 :: c2 :: c3 :: rest2 =>
        if cont4first b c1 then
          if isCont c2 then
            if isCont c3 then
              ((b - 0xF0) * 262144 + (c1 - 0x80) * 4096 + (c2 - 0x80) * 64 + (c3 - 0x80))
                :: utf8DecodeIgnoreAux fuel rest2
            else utf8DecodeIgnoreAux fuel (c3 :: rest2)
          else utf8DecodeIgnoreAux fuel (c2 :: c3 :: rest2)
        else utf8DecodeIgnoreAux fuel (c1 :: c2 :: c3 :: rest2)
    else utf8DecodeIgnoreAux fuel rest

/-- CPython `bytes.decode("utf-8", errors="ignore")`: decode UTF-8, dropping
maximal ill-formed subsequences and resuming at the next possible start
byte. -/
def utf8DecodeIgnore (l : List Nat) : PyStr :=
  utf8DecodeIgnoreAux l.length l

/-! ## Password hasher (backend/app/core/security.py)

passlib's pbkdf2_sha256 CryptContext is modelled by an explicit key
derivation function `H : salt -> message bytes -> digest`; a stored hash
string is the pair (salt, digest). pbkdf2_sha256 imposes no length limit
and does not truncate its input. -/

/-- A stored passlib pbkdf2_sha256 hash: the salt and the derived digest. -/
structure PbkdfHash where
  salt : List Nat
  digest : List Nat
deriving DecidableEq

/-- passlib `pwd_context.hash(password)` with key derivation `H` and a fresh
`salt`: derives the digest from the UTF-8 bytes of the full password. -/
def pwdContextHash (H : List Nat → List Nat → List Nat) (salt : List Nat)
    (password : PyStr) : PbkdfHash :=
  { salt := salt, digest := H salt (utf8Encode password) }

/-- passlib `pwd_context.verify(secret, hash)`: re-derives the digest from
the UTF-8 bytes of the presented secret with the stored salt and compares. -/
def pwdContextVerify (H : List Nat → List Nat → List Nat) (secret : PyStr)
    (hashed : PbkdfHash) : Bool :=
  H hashed.salt (utf8Encode secret) == hashed.digest

/-- get_password_hash (backend/app/core/security.py, lines 32-43): encodes
the password as UTF-8, truncates to 72 bytes when longer (decoding back with
errors="ignore"), then hashes the result with the pwd_context. -/
def get_password_hash (H : List Nat → List Nat → List Nat) (salt : List Nat)
    (password : PyStr) : PbkdfHash :=
  let pw_bytes := utf8Encode password
  let password2 := if 72 < pw_bytes.length then utf8DecodeIgnore (pw_bytes.take 72) else password
  pwdContextHash H salt password2

/-- verify_password (backend/app/core/security.py, lines 22-29): passes the
plain password to pwd_context.verify unchanged; no 72-byte truncation is
applied on this path (the try/except returning False on errors does not
arise for the total model). -/
def verify_password (H : List Nat → List Nat → List Nat) (plain_password : PyStr)
    (hashed_password : PbkdfHash) : Bool :=
  pwdContextVerify H plain_password hashed_password

/-! ## Data model (backend/app/models/core.py)

Each structure carries the mapped columns the verified operations read or
write.  Nullable columns are Option; server-default timestamp columns that
no verified operation reads (created_at, updated_at) are omitted. -/

/-- Tenant (models/core.py): domain is nullable and unique. -/
structure Tenant where
  id : String
  name : String
  domain : Option String
  is_active : Bool
deriving DecidableEq

/-- Role (models/core.py): permissions is a JSON list of permission strings;
tenant_id is nullable (system roles). -/
structure Role where
  id : String
  name : String
  description : String
  permissions : List String
  tenant_id : Option String
deriving DecidableEq

/-- User (models/core.py): email is declared with unique=False; tenant_id is
required; password_hash is nullable. There is no client_id column. -/
structure User where
  id : String
  email : String
  password_hash : Option String
  first_name : String
  last_name : String
  tenant_id : String
  is_active : Bool
deriving DecidableEq

/-- UserRole (models/core.py): join entity; expires_at is nullable. -/
structure UserRole where
  id : String
  user_id : String
  role_id : String
  assigned_by : Option String
  expires_at : Option Int
deriving DecidableEq

/-- Session (models/core.py): token hashes are unique columns; expires_at is
required. There is no client_id column. -/
structure Session where
  id : String
  user_id : String
  tenant_id : String
  token_hash : String
  refresh_token_hash : String
  ip_address : Option String
  user_agent : Option String
  expires_at : Int
  last_activity : Int
deriving DecidableEq

/-- The relational store: one list per table, in insertion order. -/
structure Store where
  tenants : List Tenant
  users : List User
  roles : List Role
  user_roles : List UserRole
  sessions : List Session
deriving DecidableEq

/-- Uniqueness constraints declared on the users table in models/core.py:
only the primary key id (email is declared unique=False, so duplicate
emails are permitted, even within one tenant). -/
def usersTableConstraints (users : List User) : Prop :=
  users.Pairwise (fun a b => a.id ≠ b.id)

instance (users : List User) : Decidable (usersTableConstraints users) := by
  unfold usersTableConstraints
  exact List.instDecidablePairwise users

/-- Python str() of a nullable id column: None prints as the string None
(this is what str(role.tenant_id) yields for a system role). -/
def pyStrOfOption : Option String → String
  | none => "None"
  | some s => s

/-! ## Sync CRUD layer (backend/app/crud/core.py) -/

/-- get_user_by_email (crud/core.py, lines 19-28): filters by email, and by
tenant only when a tenant id is passed (a falsy tenant_id - None or the
empty string - skips the tenant filter); returns the first match. -/
def get_user_by_email (db : Store) (email : String) (tenant_id : Option String) :
    Option User :=
  match tenant_id with
  | none => db.users.find? (fun u => u.email == email)
  | some t => db.users.find? (fun u => u.email == email && u.tenant_id == t)

/-- create_tenant (crud/core.py, lines 67-92): when a domain is given and a
tenant with that domain already exists, return the existing row; otherwise
insert a new row with the given fresh id.  (The IntegrityError handler that
re-reads by domain is the concurrent-race variant of the same lookup and is
unreachable in this sequential model.) -/
def create_tenant (db : Store) (newId : String) (name : String)
    (domain : Option String) : Tenant × Store :=
  let fresh : Tenant := { id := newId, name := name, domain := domain, is_active := true }
  match domain with
  | some d =>
    match db.tenants.find? (fun t => t.domain == some d) with
    | some existing => (existing, db)
    | none => (fresh, { db with tenants := db.tenants ++ [fresh] })
  | none => (fresh, { db with tenants := db.tenants ++ [fresh] })

/-- assign_role_to_user (crud/core.py, lines 128-170): inserts a UserRole row
for the given user and role with no tenant validation of any kind; the
cache invalidation afterwards is external and best-effort.  (No database
constraint on user_roles can fire, so the IntegrityError branch is
unreachable.) -/
def assign_role_to_user (db : Store) (newId : String) (user_id role_id : String)
    (assigned_by : Option String) : UserRole × Store :=
  let ur : UserRole :=
    { id := newId, user_id := user_id, role_id := role_id,
      assigned_by := assigned_by, expires_at := none }
  (ur, { db with user_roles := db.user_roles ++ [ur] })

/-- The expiry filter of the permission query (crud/core.py, line 204):
expires_at IS NULL OR expires_at > now. -/
def UserRole.active (now : Int) (ur : UserRole) : Bool :=
  match ur.expires_at with
  | none => true
  | some e => decide (now < e)

/-- get_user_permissions (crud/core.py, lines 173-219): looks up the user
(for the tenant-scoped cache key), returns the cached value on a hit, else
joins Role permissions over the user's non-expired UserRole rows, flattens
and deduplicates.  `cached` is the value the external cache lookup yields;
it is only consulted when the user (and hence a tenant id) was found.
list(set(perms)) fixes no order, so results are read via membership. -/
def get_user_permissions (cached : Option (List String)) (db : Store) (now : Int)
    (user_id : String) : List String :=
  let u := db.users.find? (fun x => x.id == user_id)
  let cachedPerms := match u with
    | some _ => cached
    | none => none
  match cachedPerms with
  | some ps => ps
  | none =>
    let activeRows := db.user_roles.filter
      (fun ur => ur.user_id == user_id && UserRole.active now ur)
    let perms := activeRows.foldr
      (fun ur acc =>
        (match db.roles.find? (fun r => r.id == ur.role_id) with
          | some r => r.permissions
          | none => []) ++ acc) []
    perms.eraseDups

/-- Session lookup by refresh hash (crud/core.py, lines 286-296): first
session whose refresh_token_hash matches and whose expires_at is strictly
later than now. -/
def get_session_by_refresh_hash (db : Store) (now : Int) (refresh_hash : String) :
    Option Session :=
  db.sessions.find? (fun s => s.refresh_token_hash == refresh_hash && decide (now < s.expires_at))

/-- get_session_by_id (crud/core.py, lines 299-306). -/
def get_session_by_id (db : Store) (session_id : String) : Option Session :=
  db.sessions.find? (fun s => s.id == session_id)

/-- rotate_refresh_token (crud/core.py, lines 340-362): finds the session by
id (None when absent), overwrites both token hashes with the hashes of the
new tokens, sets the new expiry and bumps last_activity.  `hashTok` is the
SHA-256 hex token hash (_hash_token). -/
def rotate_refresh_token (hashTok : String → String) (db : Store) (now : Int)
    (session_id new_access_token new_refresh_token : String) (new_expires_at : Int) :
    Option Session × Store :=
  match get_session_by_id db session_id with
  | none => (none, db)
  | some s =>
    let s2 : Session :=
      { s with token_hash := hashTok new_access_token,
               refresh_token_hash := hashTok new_refresh_token,
               expires_at := new_expires_at,
               last_activity := now }
    (some s2,
     { db with sessions := db.sessions.map (fun x => if x.id == session_id then s2 else x) })

/-! ## Sync auth dependencies (backend/app/auth/core.py) -/

/-- require_permission (auth/core.py, lines 70-79): the generated checker
resolves the user's permissions via crud.get_user_permissions and raises
403 unless the requested permission string is literally a member; true
means the check passed.  No wildcard handling exists on this path. -/
def require_permission (cached : Option (List String)) (db : Store) (now : Int)
    (permission : String) (user_id : String) : Bool :=
  (get_user_permissions cached db now user_id).contains permission

/-! ## Python attribute access

The async modules read attributes named client_id from User and Session
objects.  Attribute access on a mapped instance is a lookup in its attribute
table; the models in models/core.py define tenant_id, not client_id, so such
a lookup fails with AttributeError.  Attribute tables are name/value string
pairs (only presence and the looked-up value matter). -/

/-- getattr on a Python object modelled by its attribute table: the value
when the name is bound, none (AttributeError) otherwise. -/
def pygetattr (attrs : List (String × String)) (name : String) : Option String :=
  (attrs.find? (fun p => p.1 == name)).map (fun p => p.2)

/-- Attribute table of a User instance: exactly the columns mapped in
models/core.py (string-rendered values; relationship attributes tenant and
roles omitted as they are never read by the verified code).  No client_id
attribute exists. -/
def User.pyattrs (u : User) : List (String × String) :=
  [("id", u.id), ("email", u.email), ("password_hash", pyStrOfOption u.password_hash),
   ("first_name", u.first_name), ("last_name", u.last_name),
   ("tenant_id", u.tenant_id), ("is_active", toString u.is_active)]

/-- Attribute table of a Session instance: exactly the columns mapped in
models/core.py (as modelled in Session).  No client_id attribute exists. -/
def Session.pyattrs (s : Session) : List (String × String) :=
  [("id", s.id), ("user_id", s.user_id), ("tenant_id", s.tenant_id),
   ("token_hash", s.token_hash), ("refresh_token_hash", s.refresh_token_hash),
   ("ip_address", pyStrOfOption s.ip_address), ("user_agent", pyStrOfOption s.user_agent),
   ("expires_at", toString s.expires_at), ("last_activity", toString s.last_activity)]

/-! ## Tenant access guard (backend/app/auth/async_auth.py) -/

/-- Outcome of validate_tenant_access_async: pass, HTTP 403, or an escaped
AttributeError (callers' generic exception handlers surface it as 500). -/
inductive TenantAccessOutcome where
  | ok
  | forbidden
  | attributeError
deriving DecidableEq

/-- validate_tenant_access_async (auth/async_auth.py, lines 170-174): reads
current_user.client_id and raises 403 when its str() differs from the
requested id; there is no superadmin branch and the store is never
consulted.  The attribute read is a pygetattr on the user's attribute
table. -/
def validate_tenant_access_async (userAttrs : List (String × String))
    (requested_client_id : String) : TenantAccessOutcome :=
  match pygetattr userAttrs "client_id" with
  | none => .attributeError
  | some cid => if cid != requested_client_id then .forbidden else .ok

/-! ## Async repositories (backend/app/repositories/roles.py, sessions.py,
auth.py) -/

/-- AsyncRoleRepository.get_user_permissions (repositories/roles.py, lines
159-186): loads the user with all of its roles through the user_roles
secondary join and unions every permissions list - there is no expires_at
filter on this path.  Returns the empty set when the user is absent. -/
def AsyncRoleRepository.get_user_permissions (db : Store) (user_id : String) :
    List String :=
  match db.users.find? (fun x => x.id == user_id) with
  | none => []
  | some _ =>
    let rows := db.user_roles.filter (fun ur => ur.user_id == user_id)
    let perms := rows.foldr
      (fun ur acc =>
        (match db.roles.find? (fun r => r.id == ur.role_id) with
          | some r => r.permissions
          | none => []) ++ acc) []
    perms.eraseDups

/-- require_permission_async (auth/async_auth.py, lines 96-157): passes when
the permission string is literally a member of the async repository's
resolved set, or - via the sync fallback lookups against the same store -
of crud.get_user_permissions.  No wildcard handling exists on this path
either. -/
def require_permission_async (cached : Option (List String)) (db : Store) (now : Int)
    (permission : String) (user_id : String) : Bool :=
  (AsyncRoleRepository.get_user_permissions db user_id).contains permission
    || (get_user_permissions cached db now user_id).contains permission

/-- AsyncRoleRepository.assign_role_to_user (repositories/roles.py, lines
188-250): loads user and role, returns False when either is missing or when
str(user.tenant_id) differs from str(role.tenant_id); returns True without
inserting when the assignment already exists (scalar_one_or_none modelled
as the first match), else inserts a UserRole row with the given fresh id. -/
def AsyncRoleRepository.assign_role_to_user (db : Store) (newId : String)
    (user_id role_id : String) (assigned_by : Option String) : Bool × Store :=
  match db.users.find? (fun x => x.id == user_id) with
  | none => (false, db)
  | some user =>
    match db.roles.find? (fun x => x.id == role_id) with
    | none => (false, db)
    | some role =>
      if user.tenant_id != pyStrOfOption role.tenant_id then (false, db)
      else
        match db.user_roles.find? (fun ur => ur.user_id == user_id && ur.role_id == role_id) with
        | some _ => (true, db)
        | none =>
          let ur : UserRole :=
            { id := newId, user_id := user_id, role_id := role_id,
              assigned_by := assigned_by, expires_at := none }
          (true, { db with user_roles := db.user_roles ++ [ur] })

/-- AsyncSessionRepository.get_by_refresh_hash (repositories/sessions.py,
lines 65-79): same live-session filter as the sync lookup, read through
scalar_one_or_none - an exception (Except.error) when several rows match. -/
def AsyncSessionRepository.get_by_refresh_hash (db : Store) (now : Int)
    (refresh_hash : String) : Except Unit (Option Session) :=
  match db.sessions.filter
      (fun s => s.refresh_token_hash == refresh_hash && decide (now < s.expires_at)) with
  | [] => .ok none
  | [s] => .ok (some s)
  | _ => .error ()

/-- AsyncSessionRepository.update_refresh_token (repositories/sessions.py):
UPDATE ... WHERE id = session_id RETURNING: rewrites the hashes, expiry and
last_activity of the matching row, returning it (None when absent). -/
def AsyncSessionRepository.update_refresh_token (db : Store) (now : Int)
    (session_id new_token_hash new_refresh_hash : String) (new_expires_at : Int) :
    Option Session × Store :=
  match db.sessions.find? (fun s => s.id == session_id) with
  | none => (none, db)
  | some s =>
    let s2 : Session :=
      { s with token_hash := new_token_hash, refresh_token_hash := new_refresh_hash,
               expires_at := new_expires_at, last_activity := now }
    (some s2,
     { db with sessions := db.sessions.map (fun x => if x.id == session_id then s2 else x) })

/-- Outcome of AsyncAuthRepository.refresh_tokens.  failure is the
(None, None, None, None) tuple; exn is an exception escaping the repository
(the endpoint in api/v2/async_auth.py maps these to HTTP 401 and 500). -/
inductive RefreshTokensOutcome where
  | failure
  | exn
  | success (user : User) (sess : Option Session) (access refresh : String)
deriving DecidableEq

/-- HTTP status codes the v2 refresh endpoint (api/v2/async_auth.py, lines
204-285) produces for each repository outcome. -/
def RefreshTokensOutcome.httpStatus : RefreshTokensOutcome → Nat
  | .failure => 401
  | .exn => 500
  | .success _ _ _ _ => 200

/-- AsyncAuthRepository.refresh_tokens (repositories/auth.py, lines 111-172):
hashes the presented token, loads the live session, and compares
str(session.client_id) with the presented tenant id - returning the null
tuple when the session is missing or the comparison fails; a found session
has no client_id attribute, so the comparison itself raises AttributeError,
which the except block re-raises.  On the (unreachable for this model)
success path it re-fetches the active user, mints a new token pair with
`mint`, and rotates the stored hashes. -/
def AsyncAuthRepository.refresh_tokens (hashTok : String → String)
    (mint : String → String × String) (db : Store) (now : Int)
    (refresh_token : String) (client_id : String) : RefreshTokensOutcome × Store :=
  let refresh_hash := hashTok refresh_token
  match AsyncSessionRepository.get_by_refresh_hash db now refresh_hash with
  | .error _ => (.exn, db)
  | .ok none => (.failure, db)
  | .ok (some sess) =>
    match pygetattr sess.pyattrs "client_id" with
    | none => (.exn, db)
    | some cid =>
      if cid != client_id then (.failure, db)
      else
        match db.users.find? (fun u => u.id == sess.user_id && u.is_active) with
        | none => (.failure, db)
        | some user =>
          let pair := mint user.id
          let upd := AsyncSessionRepository.update_refresh_token db now sess.id
            (hashTok pair.1) (hashTok pair.2) (now + 86400)
          (.success user upd.1 pair.1 pair.2, upd.2)

/-! ## Sync auth endpoints (backend/app/api/v1/sync_core.py) -/

/-- Authentication outcome of the login endpoint; the relevant part of the
claim is which user the flow authenticates as (token minting, session
creation and cookies follow in the source and do not change that choice).
internalError is pwd_context.verify raising on a None stored hash. -/
inductive LoginOutcome where
  | invalidCredentials
  | internalError
  | authenticated (user : User)
deriving DecidableEq

/-- login (api/v1/sync_core.py, lines 35-44, credential phase): looks the
user up by email and tenant (a falsy tenant value skips the tenant filter,
see get_user_by_email) and checks the password with pwd_context.verify,
modelled by `verify`; 401 on no user or a failed check. -/
def login (verify : String → String → Bool) (db : Store)
    (email password : String) (tenant_id : Option String) : LoginOutcome :=
  match get_user_by_email db email tenant_id with
  | none => .invalidCredentials
  | some user =>
    match user.password_hash with
    | none => .internalError
    | some ph => if verify password ph then .authenticated user else .invalidCredentials

/-- Outcome of the sync refresh endpoint. -/
inductive SyncRefreshOutcome where
  | badRequest
  | unauthorized
  | forbidden
  | serverError
  | success (access refresh : String) (sess : Session)
deriving DecidableEq

/-- refresh (api/v1/sync_core.py, lines 108-185): requires the refresh_token
cookie (400), resolves the live session by token hash (401), requires the
tenant cookie (400), rejects with 403 when str(sess.tenant_id) differs from
the tenant cookie, else rotates the session in place via
rotate_refresh_token.  new_access and new_refresh stand for the fresh JWT
and secrets.token_urlsafe values minted at that point. -/
def refresh (hashTok : String → String) (db : Store) (now : Int)
    (refresh_cookie tenant_cookie : Option String)
    (new_access new_refresh : String) : SyncRefreshOutcome × Store :=
  match refresh_cookie with
  | none => (.badRequest, db)
  | some tok =>
    let refresh_hash := hashTok tok
    match get_session_by_refresh_hash db now refresh_hash with
    | none => (.unauthorized, db)
    | some sess =>
      match tenant_cookie with
      | none => (.badRequest, db)
      | some tc =>
        if sess.tenant_id != tc then (.forbidden, db)
        else
          match rotate_refresh_token hashTok db now sess.id new_access new_refresh
              (now + 30 * 86400) with
          | (none, db2) => (.serverError, db2)
          | (some s2, db2) => (.success new_access new_refresh s2, db2)

/-! ## Concrete instances of the external primitives and fixture stores -/

/-- Concrete stand-in for _hash_token (SHA-256 hex) in evaluations: any
injective-on-the-inputs function works since the logic never inverts it. -/
def shaTok (s : String) : String := "sha256:" ++ s

/-- Concrete stand-in for the PBKDF2 key derivation in evaluations. -/
def concatH (salt msg : List Nat) : List Nat := salt ++ msg

/-- Concrete stand-in for pwd_context.verify at the store level: a stored
hash is the password tagged with a suffix. -/
def checkPw (password stored : String) : Bool := stored == password ++ "-h"

/-- Fixture tenant A. -/
def tenantA : Tenant := { id := "tA", name := "Tenant A", domain := some "a.local", is_active := true }

/-- Fixture tenant B. -/
def tenantB : Tenant := { id := "tB", name := "Tenant B", domain := some "b.local", is_active := true }

/-- Fixture user u1 of tenant A (the superadmin of the wildcard store). -/
def userU1 : User :=
  { id := "u1", email := "root@a.local", password_hash := some "pw-h",
    first_name := "", last_name := "", tenant_id := "tA", is_active := true }

/-- Store in which u1 holds a role literally named superadmin whose only
permission is the wildcard string. -/
def csWildcard : Store :=
  { tenants := [tenantA],
    users := [userU1],
    roles := [{ id := "r1", name := "superadmin", description := "",
                permissions := ["*"], tenant_id := some "tA" }],
    user_roles := [{ id := "ur1", user_id := "u1", role_id := "r1",
                     assigned_by := none, expires_at := none }],
    sessions := [] }

/-- Store in which u2's only role assignment expired before time 0. -/
def csExpired : Store :=
  { tenants := [tenantA],
    users := [{ id := "u2", email := "eve@a.local", password_hash := some "pw-h",
                first_name := "", last_name := "", tenant_id := "tA", is_active := true }],
    roles := [{ id := "r2", name := "temp", description := "",
                permissions := ["read:protected"], tenant_id := some "tA" }],
    user_roles := [{ id := "ur2", user_id := "u2", role_id := "r2",
                     assigned_by := some "u2", expires_at := some (-1) }],
    sessions := [] }

/-- Store with a user in tenant A and a role in tenant B and no assignments. -/
def csCross : Store :=
  { tenants := [tenantA, tenantB],
    users := [{ id := "u3", email := "bob@a.local", password_hash := some "pw-h",
                first_name := "", last_name := "", tenant_id := "tA", is_active := true }],
    roles := [{ id := "r3", name := "editor", description := "",
                permissions := ["docs:edit"], tenant_id := some "tB" }],
    user_roles := [],
    sessions := [] }

/-- Store with one live session of tenant A whose stored refresh hash is the
hash of the token the caller will present. -/
def csRefresh : Store :=
  { tenants := [tenantA],
    users := [userU1],
    roles := [], user_roles := [],
    sessions := [{ id := "s1", user_id := "u1", tenant_id := "tA",
                   token_hash := "th1", refresh_token_hash := shaTok "tok",
                   ip_address := none, user_agent := none,
                   expires_at := 100, last_activity := 0 }] }

/-- The live session of csRot targeted by rotation. -/
def sessRot : Session :=
  { id := "s1", user_id := "u1", tenant_id := "tA",
    token_hash := "th1", refresh_token_hash := "rh-old",
    ip_address := none, user_agent := none, expires_at := 100, last_activity := 0 }

/-- Store with two sessions bearing distinct refresh hashes. -/
def csRot : Store :=
  { tenants := [tenantA], users := [userU1], roles := [], user_roles := [],
    sessions := [sessRot,
                 { id := "s9", user_id := "u9", tenant_id := "tA",
                   token_hash := "th9", refresh_token_hash := "rh-other",
                   ip_address := none, user_agent := none,
                   expires_at := 100, last_activity := 0 }] }

/-- Store whose only session carrying hash rh expired at time 3. -/
def csExpSess : Store :=
  { tenants := [tenantA], users := [], roles := [], user_roles := [],
    sessions := [{ id := "s2", user_id := "u1", tenant_id := "tA",
                   token_hash := "th2", refresh_token_hash := "rh",
                   ip_address := none, user_agent := none,
                   expires_at := 3, last_activity := 0 }] }

/-- First user with the duplicated email, in tenant A. -/
def uDupA : User :=
  { id := "uA", email := "dup@example.com", password_hash := some "pw1-h",
    first_name := "", last_name := "", tenant_id := "tA", is_active := true }

/-- Second user with the duplicated email, in tenant B. -/
def uDupB : User :=
  { id := "uB", email := "dup@example.com", password_hash := some "pw2-h",
    first_name := "", last_name := "", tenant_id := "tB", is_active := true }

/-- Store holding two users in different tenants with the same email, which
the users table permits (email is unique=False). -/
def csDup : Store :=
  { tenants := [tenantA, tenantB], users := [uDupA, uDupB],
    roles := [], user_roles := [], sessions := [] }

/-- A 73-code-point all-ASCII password: its UTF-8 encoding is 73 bytes. -/
def longPw : PyStr := List.replicate 73 97

/-! ## Theorems settling the claims -/

/-- Claim C1: the spec says a check for permission P succeeds iff P or the
wildcard string is in the resolved set.  In the code neither
require_permission nor require_permission_async treats the wildcard
specially: a user whose resolved set is exactly the wildcard singleton is
denied audit:create on both paths, and only the literal string passes. -/
theorem wildcard_permission_not_honored :
    "*" ∈ get_user_permissions none csWildcard 0 "u1"
    ∧ require_permission none csWildcard 0 "audit:create" "u1" = false
    ∧ require_permission_async none csWildcard 0 "audit:create" "u1" = false
    ∧ require_permission none csWildcard 0 "*" "u1" = true := by decide

/-- Claim C2: the spec says tenant-access validation passes for the same
tenant, fails with 403 for a different tenant, and always passes for a
holder of the superadmin role.  The code keys on a client_id attribute the
User model does not define, so for every user and every requested tenant
the validation raises AttributeError: it never passes (not even same-tenant
or superadmin) and never produces the 403, and no superadmin branch exists
at all. -/
theorem validate_tenant_access_always_attribute_error :
    ∀ (u : User) (requested : String),
      validate_tenant_access_async u.pyattrs requested = .attributeError :=
  fun _ _ => rfl

/-- Claim C4 counterexample: with a single role assignment that expired
before the resolution time, the async repository path still counts the
role's permissions (the sync path excludes them), refuting the claim that
expired assignments are excluded on both paths. -/
theorem async_resolver_counts_expired_assignment :
    (∀ ur ∈ csExpired.user_roles, UserRole.active 0 ur = false)
    ∧ "read:protected" ∈ AsyncRoleRepository.get_user_permissions csExpired "u2"
    ∧ "read:protected" ∉ get_user_permissions none csExpired 0 "u2" := by decide

/-- Claim C5: the spec says the 72-byte truncation applied at hashing is
applied again at verification, so a long password round-trips.  In the code
verify_password passes the untruncated input to the context, so hashing a
73-byte password and verifying the same password fails, while verifying its
72-byte truncation succeeds. -/
theorem verify_password_no_truncation_over_72 :
    verify_password concatH longPw (get_password_hash concatH [0] longPw) = false
    ∧ verify_password concatH (List.replicate 72 97)
        (get_password_hash concatH [0] longPw) = true := by decide

/-- Claim C6 counterexample: the sync crud path assigns a tenant-A user a
tenant-B role without any validation - the UserRole row is created, refuting
the claim that every cross-tenant assignment fails with no record. -/
theorem sync_assign_creates_cross_tenant_record :
    ((csCross.users.find? (fun u => u.id == "u3")).map User.tenant_id = some "tA")
    ∧ ((csCross.roles.find? (fun r => r.id == "r3")).map Role.tenant_id = some (some "tB"))
    ∧ (assign_role_to_user csCross "ur3" "u3" "r3" none).2.user_roles
        = [{ id := "ur3", user_id := "u3", role_id := "r3",
             assigned_by := none, expires_at := none }] := by decide

/-- Claim C7 counterexample: presenting a valid refresh token of a live
tenant-A session with tenant context tB to the async repository does not
produce the Forbidden the claim requires: reading the session's nonexistent
client_id attribute raises, the endpoint surfaces 500, and the session is
left unrotated.  (The same happens for the matching tenant, so the
comparison never yields Forbidden on this path.) -/
theorem async_refresh_tenant_mismatch_not_forbidden :
    AsyncAuthRepository.refresh_tokens shaTok (fun uid => (uid ++ "-a", uid ++ "-r"))
        csRefresh 0 "tok" "tB" = (.exn, csRefresh)
    ∧ (csRefresh.sessions.map Session.tenant_id = ["tA"])
    ∧ RefreshTokensOutcome.exn.httpStatus = 500 := by decide

/-- Claim C10: the users table declares no uniqueness on email, two users in
different tenants may share one; with the tenant filter skipped (falsy
tenant id) get_user_by_email returns the first email match across tenants,
and login authenticates against exactly that first user: the first user's
credentials succeed, the second user's credentials fail without a tenant id
and succeed with one. -/
theorem duplicate_email_login_first_match :
    usersTableConstraints csDup.users
    ∧ uDupA.email = uDupB.email
    ∧ uDupA.tenant_id ≠ uDupB.tenant_id
    ∧ get_user_by_email csDup "dup@example.com" none = some uDupA
    ∧ login checkPw csDup "dup@example.com" "pw1" none = .authenticated uDupA
    ∧ login checkPw csDup "dup@example.com" "pw2" none = .invalidCredentials
    ∧ login checkPw csDup "dup@example.com" "pw2" (some "tB") = .authenticated uDupB := by
  decide

/-- Claim C3: when a session holds refresh hash h, no other session holds h,
and rotation succeeds with a new refresh token hashing to something other
than h, then a lookup by h afterwards finds nothing at any time: the old
refresh token can never be used to refresh again. -/
theorem rotate_refresh_token_invalidates_old_hash
    (hashTok : String → String) (db : Store) (now now2 : Int)
    (sid na nr h : String) (nexp : Int) (s : Session)
    (hfind : get_session_by_id db sid = some s)
    (_hhash : s.refresh_token_hash = h)
    (huniq : ∀ x ∈ db.sessions, x.refresh_token_hash = h → x.id = sid)
    (hnew : hashTok nr ≠ h) :
    get_session_by_refresh_hash
      (rotate_refresh_token hashTok db now sid na nr nexp).2 now2 h = none := by
  unfold rotate_refresh_token
  rw [hfind]
  unfold get_session_by_refresh_hash
  rw [List.find?_eq_none]
  intro y hy
  rw [List.mem_map] at hy
  obtain ⟨x, hx, rfl⟩ := hy
  by_cases hid : x.id == sid
  · simp only [hid, if_true, Bool.and_eq_true, beq_iff_eq, decide_eq_true_eq, not_and]
    intro heq
    exact absurd heq hnew
  · simp only [hid, if_false, Bool.and_eq_true, beq_iff_eq, decide_eq_true_eq, not_and]
    intro heq
    exact absurd (huniq x hx heq) (by simpa using hid)

/-- Witness for claim C3 at a concrete store with two sessions. -/
theorem rotate_refresh_token_invalidates_old_hash_witness :
    get_session_by_refresh_hash
      (rotate_refresh_token shaTok csRot 5 "s1" "na" "nr" 999).2 7 "rh-old" = none :=
  rotate_refresh_token_invalidates_old_hash shaTok csRot 5 7 "s1" "na" "nr" "rh-old"
    999 sessRot (by decide) (by decide) (by decide) (by decide)

/-- Claim C4 as amended: on the sync path expired assignments contribute
nothing - dropping every expired UserRole row from the store leaves
crud.get_user_permissions unchanged (null or future expires_at rows are
kept by the same filter).  The async repository path has no such filter;
see the counterexample. -/
theorem sync_permissions_ignore_expired_assignments
    (cached : Option (List String)) (db : Store) (now : Int) (uid : String) :
    get_user_permissions cached
        { db with user_roles := db.user_roles.filter (fun ur => UserRole.active now ur) }
        now uid
      = get_user_permissions cached db now uid := by
  have key : (db.user_roles.filter (fun ur => UserRole.active now ur)).filter
        (fun ur => ur.user_id == uid && UserRole.active now ur)
      = db.user_roles.filter (fun ur => ur.user_id == uid && UserRole.active now ur) := by
    rw [List.filter_filter]
    apply List.filter_congr
    intro a _
    cases hact : UserRole.active now a <;> simp [hact]
  unfold get_user_permissions
  rw [key]

/-- Claim C6 as amended: only the async repository validates same-tenant
membership - with both user and role present and differing tenant strings
it returns False and creates no UserRole row (the sync crud path performs
no tenant check at all; see the counterexample). -/
theorem async_assign_role_rejects_cross_tenant
    (db : Store) (newId uid rid : String) (aby : Option String) (u : User) (r : Role)
    (hu : db.users.find? (fun x => x.id == uid) = some u)
    (hr : db.roles.find? (fun x => x.id == rid) = some r)
    (hne : u.tenant_id ≠ pyStrOfOption r.tenant_id) :
    AsyncRoleRepository.assign_role_to_user db newId uid rid aby = (false, db) := by
  unfold AsyncRoleRepository.assign_role_to_user
  rw [hu, hr]
  simp [hne]

/-- Witness for claim C6 at the cross-tenant store. -/
theorem async_assign_role_rejects_cross_tenant_witness :
    AsyncRoleRepository.assign_role_to_user csCross "ur3" "u3" "r3" none = (false, csCross) :=
  async_assign_role_rejects_cross_tenant csCross "ur3" "u3" "r3" none
    { id := "u3", email := "bob@a.local", password_hash := some "pw-h",
      first_name := "", last_name := "", tenant_id := "tA", is_active := true }
    { id := "r3", name := "editor", description := "",
      permissions := ["docs:edit"], tenant_id := some "tB" }
    (by decide) (by decide) (by decide)

/-- Claim C7 as amended: on the sync v1 path a live session whose tenant
differs from the presented tenant cookie makes refresh fail with 403
Forbidden and leaves the store (hence the session) unchanged.  The async
repository path never produces a Forbidden for a mismatch; see the
counterexample. -/
theorem sync_refresh_tenant_mismatch_forbidden
    (hashTok : String → String) (db : Store) (now : Int)
    (tok tc na nr : String) (sess : Session)
    (hsess : get_session_by_refresh_hash db now (hashTok tok) = some sess)
    (hne : sess.tenant_id ≠ tc) :
    refresh hashTok db now (some tok) (some tc) na nr = (.forbidden, db) := by
  simp [refresh, hsess, hne]

/-- Witness for claim C7: the tenant-A session of csRefresh presented with
tenant cookie tB. -/
theorem sync_refresh_tenant_mismatch_forbidden_witness :
    refresh shaTok csRefresh 0 (some "tok") (some "tB") "na" "nr"
      = (.forbidden, csRefresh) :=
  sync_refresh_tenant_mismatch_forbidden shaTok csRefresh 0 "tok" "tB" "na" "nr"
    { id := "s1", user_id := "u1", tenant_id := "tA",
      token_hash := "th1", refresh_token_hash := shaTok "tok",
      ip_address := none, user_agent := none, expires_at := 100, last_activity := 0 }
    (by decide) (by decide)

/-- Claim C8: creating a tenant twice with the same non-null domain returns
the same tenant id both times, for every starting store and any pair of
names; the duplicate-domain conflict is absorbed by the lookup that returns
the existing row, never surfaced (create_tenant is total). -/
theorem create_tenant_idempotent_by_domain
    (db : Store) (i1 i2 n1 n2 d : String) :
    (create_tenant (create_tenant db i1 n1 (some d)).2 i2 n2 (some d)).1.id
      = (create_tenant db i1 n1 (some d)).1.id := by
  unfold create_tenant
  cases hfind : db.tenants.find? (fun t => t.domain == some d) with
  | some e => simp [hfind]
  | none => simp [hfind, List.find?_append]

/-- Claim C9: a session returned by the refresh-hash lookup matches the hash
and is strictly unexpired; when every session bearing the hash has expired
(expires_at less than or equal to now) the lookup returns none. -/
theorem get_session_by_refresh_hash_live_only (db : Store) (now : Int) (h : String) :
    (∀ s : Session, get_session_by_refresh_hash db now h = some s →
        s.refresh_token_hash = h ∧ now < s.expires_at)
    ∧ ((∀ s ∈ db.sessions, s.refresh_token_hash = h → s.expires_at ≤ now) →
        get_session_by_refresh_hash db now h = none) := by
  constructor
  · intro s hs
    unfold get_session_by_refresh_hash at hs
    have hp := List.find?_some hs
    simp only [Bool.and_eq_true, beq_iff_eq, decide_eq_true_eq] at hp
    exact hp
  · intro hall
    unfold get_session_by_refresh_hash
    rw [List.find?_eq_none]
    intro x hx
    simp only [Bool.and_eq_true, beq_iff_eq, decide_eq_true_eq, not_and]
    intro heq
    exact not_lt.mpr (hall x hx heq)

/-- Witness for claim C9 at a store whose only rh-session expired at 3,
looked up at time 10. -/
theorem get_session_by_refresh_hash_live_only_witness :
    get_session_by_refresh_hash csExpSess 10 "rh" = none :=
  (get_session_by_refresh_hash_live_only csExpSess 10 "rh").2 (by decide)

end App
